import Mathlib

set_option maxRecDepth 8000

/-!
Verification development for the ADC0832 bit-banged driver (src/ADC0832.py).

The driver talks to an 8-bit two-channel analog-to-digital converter over
three GPIO pins (chip-select `cs`, clock `clk`, bidirectional data `dio`).
We embed the Python module shallowly:

* every GPIO primitive invocation (`GPIO.setup`, `GPIO.output`, `GPIO.input`,
  `time.sleep(_T)`, `GPIO.cleanup`) is recorded as an event in an emitted
  trace, in program order;
* `time.sleep(_T)` is one timing unit (the module constant `_T`), so the
  wall-clock separation of two trace points is the number of `sleep` events
  between them, in units of the configured minimum half-cycle delay;
* the converter's behaviour on the data line is an environment
  `env : Nat → Bool` giving the level observed by the n-th `GPIO.input`
  call of the transaction;
* Python exceptions are modelled with `Except`; the module-level globals
  `_CS_PIN`, `_CLK_PIN`, `_DIO_PIN` are a `ModuleState` value threaded
  explicitly; the set of channels the GPIO library currently has configured
  (relevant to `GPIO.cleanup`) is a `GPIOSt` value.
-/

namespace ADC0832

/-- A digital level on a pin (GPIO.LOW / GPIO.HIGH). -/
inductive Level
  | low
  | high
deriving DecidableEq, Repr

/-- One recorded GPIO primitive invocation.

`setOut p` is `GPIO.setup(p, GPIO.OUT, initial=GPIO.LOW)` (the helper
`_pin_mode_output`), which configures `p` as an output driven low.
`setIn p` is `GPIO.setup(p, GPIO.IN)` (the helper `_pin_mode_input`).
`write p l` is `GPIO.output(p, l)`. `readPin p` is `GPIO.input(p)` (the
observed level is supplied by the environment, not stored in the event).
`sleep` is `time.sleep(_T)`, one configured timing unit. `release p` is the
pin controller returning pin `p` to its neutral unconfigured state during
`GPIO.cleanup()`. -/
inductive Ev
  | setOut (p : Nat)
  | setIn (p : Nat)
  | write (p : Nat) (l : Level)
  | readPin (p : Nat)
  | sleep
  | release (p : Nat)
deriving DecidableEq, Repr

/-- The module-level pin assignment: the globals `_CS_PIN`, `_CLK_PIN`,
`_DIO_PIN` of ADC0832.py. -/
structure ModuleState where
  cs : Nat
  clk : Nat
  dio : Nat
deriving DecidableEq, Repr

/-- The initial values of the module globals (`_CS_PIN = 17`, `_CLK_PIN = 18`,
`_DIO_PIN = 27`), in force before `setup` is ever called. -/
def initialState : ModuleState := ⟨17, 18, 27⟩

/-- The channels the GPIO library currently has set up in this process
(the bookkeeping behind `GPIO.cleanup`). -/
structure GPIOSt where
  configured : List Nat
deriving DecidableEq, Repr

/-- Errors raised by the driver, and the spec's error taxonomy.

`invalidChannel` is the `ValueError("channel must be 0 or 1")` of `read`;
`notInitialized` is the `RuntimeError("ADC0832Device is closed.")` of the
device wrapper; `configurationError` is the spec's `ConfigurationError`
(never raised by this code); `gpioFailure` stands for an arbitrary exception
thrown inside the pin controller. -/
inductive AdcError
  | invalidChannel
  | notInitialized
  | configurationError
  | gpioFailure
deriving DecidableEq, Repr

/-- The value `read` returns: a single reconciled sample, or the raw pair
when `return_both=True`. -/
inductive ReadResult
  | single (v : Nat)
  | both (a b : Nat)
deriving DecidableEq, Repr

/-- Embedding of `setup(cs, clk, dio, warn)` (ADC0832.py lines 66-90): store
the pin numbers into the module globals, configure all three pins as outputs,
then drive CS high, CLK low, DIO low and wait one timing unit.  The source
performs no validation of the pin numbers and has no failure path; the
`Except` result records that it never raises. -/
def setup (g : GPIOSt) (cs clk dio : Nat) (_warn : Bool) :
    Except AdcError (GPIOSt × ModuleState × List Ev) :=
  Except.ok (⟨((g.configured.insert cs).insert clk).insert dio⟩, ⟨cs, clk, dio⟩,
    [Ev.setOut cs, Ev.setOut clk, Ev.setOut dio,
     Ev.write cs Level.high, Ev.write clk Level.low, Ev.write dio Level.low,
     Ev.sleep])

/-- The pin controller's bulk release, `GPIO.cleanup()`: returns every channel
this process configured to a neutral state.  The Boolean `fails` selects an
arbitrary failing behaviour of the controller (it may raise). -/
def gpio_cleanup (g : GPIOSt) (fails : Bool) : Except AdcError (GPIOSt × List Ev) :=
  if fails then Except.error AdcError.gpioFailure
  else Except.ok (⟨[]⟩, g.configured.map Ev.release)

/-- Embedding of the module-level `cleanup()` (lines 93-99): call
`GPIO.cleanup()` inside `try: ... except Exception: pass`, absorbing any
failure of the pin controller. -/
def cleanup (g : GPIOSt) (fails : Bool) : Except AdcError (GPIOSt × List Ev) :=
  match gpio_cleanup g fails with
  | Except.ok r => Except.ok r
  | Except.error _ => Except.ok (g, [])

/-- Embedding of `_clock_pulse()` (lines 102-107): one rising-then-falling
clock edge, with one timing unit after each edge. -/
def clock_pulse (st : ModuleState) : List Ev :=
  [Ev.write st.clk Level.high, Ev.sleep, Ev.write st.clk Level.low, Ev.sleep]

/-- Embedding of `_start_sequence(channel)` (lines 110-142): re-assert DIO as
an output, pull CS and CLK low, transmit the start bit (1), the
single-ended-mode bit (1) and the channel bit (`channel` truthiness), each
followed by one clock pulse, then release DIO to input mode and wait one
unit. -/
def start_sequence (st : ModuleState) (channel : Int) : List Ev :=
  Ev.setOut st.dio ::
    Ev.write st.cs Level.low :: Ev.write st.clk Level.low :: Ev.sleep ::
    Ev.write st.dio Level.high :: (clock_pulse st ++
      (Ev.write st.dio Level.high :: (clock_pulse st ++
        (Ev.write st.dio (if channel = 0 then Level.low else Level.high) ::
          (clock_pulse st ++ [Ev.setIn st.dio, Ev.sleep])))))

/-- The loop body of `_read_byte_msb_first` (lines 145-160), with `n`
remaining iterations, `i` the index of the next `GPIO.input` call of the
transaction, and `value` the accumulator: raise CLK, wait, sample the data
pin, shift the sampled bit into the accumulator from the right
(`value = (value << 1) | bit`), lower CLK, wait. -/
def read_byte_go (st : ModuleState) (env : Nat → Bool) :
    Nat → Nat → Nat → Nat × List Ev
  | _, value, 0 => (value, [])
  | i, value, n + 1 =>
    let bit : Nat := cond (env i) 1 0
    let rest := read_byte_go st env (i + 1) (value <<< 1 ||| bit) n
    (rest.1,
      Ev.write st.clk Level.high :: Ev.sleep :: Ev.readPin st.dio ::
        Ev.write st.clk Level.low :: Ev.sleep :: rest.2)

/-- Embedding of `_read_byte_msb_first()` (lines 145-160): read 8 bits
MSB-first from DIO on CLK rising edges, the first sampled bit becoming the
top bit.  `i` is the index of the first `GPIO.input` call within the
transaction. -/
def read_byte_msb_first (st : ModuleState) (env : Nat → Bool) (i : Nat) :
    Nat × List Ev :=
  read_byte_go st env i 0 8

/-- Embedding of the module-level `read(channel, return_both)` (lines
163-216).  Raises `ValueError` for a channel outside {0, 1} before touching
any pin.  Otherwise: pull CS and CLK low, wait; run `_start_sequence`; read
`dat1`; one extra alignment clock pulse; read `dat2`; raise CS, wait.  With
`return_both` the raw pair `(dat1 & 0xFF, dat2 & 0xFF)` is returned; else
`dat1 & 0xFF` when the two samples agree, and `max(0, min(255, dat1))`
otherwise. -/
def read (st : ModuleState) (channel : Int) (env : Nat → Bool)
    (return_both : Bool) : Except AdcError ReadResult × List Ev :=
  if channel = 0 ∨ channel = 1 then
    let b1 := read_byte_msb_first st env 0
    let b2 := read_byte_msb_first st env 8
    let dat1 := b1.1
    let dat2 := b2.1
    let trace : List Ev :=
      Ev.write st.cs Level.low :: Ev.write st.clk Level.low :: Ev.sleep ::
        (start_sequence st channel ++
          (b1.2 ++
            (Ev.write st.clk Level.high :: Ev.sleep ::
              Ev.write st.clk Level.low :: Ev.sleep ::
                (b2.2 ++ [Ev.write st.cs Level.high, Ev.sleep]))))
    let result : Except AdcError ReadResult :=
      if return_both then Except.ok (ReadResult.both (dat1 &&& 255) (dat2 &&& 255))
      else if dat1 = dat2 then Except.ok (ReadResult.single (dat1 &&& 255))
      else Except.ok (ReadResult.single (max 0 (min 255 dat1)))
    (result, trace)
  else (Except.error AdcError.invalidChannel, [])

/-- The object-oriented wrapper `ADC0832Device` (lines 221-249).  Its only
instance attribute is the `_closed` flag: it holds no pin state of its own. -/
structure ADC0832Device where
  closed : Bool
deriving DecidableEq, Repr

/-- Embedding of `ADC0832Device.__init__` (lines 226-228): call the
module-level `setup` with the given pins and start with `_closed = False`. -/
def ADC0832Device.init (g : GPIOSt) (cs clk dio : Nat) (warn : Bool) :
    Except AdcError (ADC0832Device × GPIOSt × ModuleState × List Ev) :=
  match setup g cs clk dio warn with
  | Except.ok (g2, st, tr) => Except.ok (⟨false⟩, g2, st, tr)
  | Except.error e => Except.error e

/-- Embedding of `ADC0832Device.read` (lines 230-233): raise if the device is
closed, before any pin operation; otherwise delegate to the module-level
`read` on the current module globals. -/
def ADC0832Device.read (d : ADC0832Device) (st : ModuleState) (channel : Int)
    (env : Nat → Bool) : Except AdcError ReadResult × List Ev :=
  if d.closed then (Except.error AdcError.notInitialized, [])
  else ADC0832.read st channel env false

/-- Embedding of `ADC0832Device.read_both` (lines 235-238): raise if closed,
else the module-level `read` with `return_both=True`. -/
def ADC0832Device.read_both (d : ADC0832Device) (st : ModuleState)
    (channel : Int) (env : Nat → Bool) : Except AdcError ReadResult × List Ev :=
  if d.closed then (Except.error AdcError.notInitialized, [])
  else ADC0832.read st channel env true

/-- Embedding of `ADC0832Device.close` (lines 240-243): on the first call run
the module-level `cleanup` and set `_closed`; later calls do nothing. -/
def ADC0832Device.close (d : ADC0832Device) (g : GPIOSt) (fails : Bool) :
    Except AdcError (ADC0832Device × GPIOSt × List Ev) :=
  if d.closed then Except.ok (d, g, [])
  else
    match cleanup g fails with
    | Except.ok (g2, tr) => Except.ok (⟨true⟩, g2, tr)
    | Except.error e => Except.error e

/-! ### Trace analysis

Interpretation of an emitted trace as signal activity on the three bus pins.
A `BusSt` records the configuration of the chip-select, clock and data pins
(all other pins are untouched by the driver).  A signal transition is a level
change on an output pin, or a direction change; re-configuring a pin to the
state it already has, sampling, and sleeping are not transitions. -/

/-- Configuration of one pin: an output driven at a level, or an input. -/
inductive PinCfg
  | out (l : Level)
  | inp
deriving DecidableEq, Repr

/-- The configurations of the chip-select, clock and data pins. -/
structure BusSt where
  csPin : PinCfg
  clkPin : PinCfg
  dioPin : PinCfg
deriving DecidableEq, Repr

/-- The idle bus state `setup` establishes: chip-select high, clock low,
data low, all outputs. -/
def idleBus : BusSt := ⟨PinCfg.out Level.high, PinCfg.out Level.low, PinCfg.out Level.low⟩

/-- Look up the configuration of pin `p` when the bus pins are numbered
`cs`, `clk`, `dio`; `none` for a pin the driver does not own. -/
def busGet (cs clk dio : Nat) (b : BusSt) (p : Nat) : Option PinCfg :=
  if p = cs then some b.csPin
  else if p = clk then some b.clkPin
  else if p = dio then some b.dioPin
  else none

/-- Replace the configuration of pin `p` (no effect on a foreign pin). -/
def busSet (cs clk dio : Nat) (b : BusSt) (p : Nat) (c : PinCfg) : BusSt :=
  if p = cs then { b with csPin := c }
  else if p = clk then { b with clkPin := c }
  else if p = dio then { b with dioPin := c }
  else b

/-- Effect of one event on the bus state.  `setOut` configures output-low,
`setIn` configures input, `write` changes the driven level of an output pin
(a write to a non-output pin drives nothing).  `release` events occur only in
`GPIO.cleanup` traces, which are never interpreted against a `BusSt`. -/
def stepBus (cs clk dio : Nat) (b : BusSt) : Ev → BusSt
  | Ev.setOut p => busSet cs clk dio b p (PinCfg.out Level.low)
  | Ev.setIn p => busSet cs clk dio b p PinCfg.inp
  | Ev.write p l =>
    match busGet cs clk dio b p with
    | some (PinCfg.out _) => busSet cs clk dio b p (PinCfg.out l)
    | _ => b
  | _ => b

/-- Run a trace from a bus state. -/
def runBus (cs clk dio : Nat) (b : BusSt) : List Ev → BusSt
  | [] => b
  | e :: rest => runBus cs clk dio (stepBus cs clk dio b e) rest

/-- Whether an event is a signal transition in bus state `b`: a direction
change, or a level change on an output pin.  Sampling and sleeping are not
transitions, nor is re-establishing a configuration a pin already has. -/
def transitionOf (cs clk dio : Nat) (b : BusSt) : Ev → Bool
  | Ev.setOut p =>
    match busGet cs clk dio b p with
    | some (PinCfg.out Level.low) => false
    | some _ => true
    | none => false
  | Ev.setIn p =>
    match busGet cs clk dio b p with
    | some PinCfg.inp => false
    | some _ => true
    | none => false
  | Ev.write p l =>
    match busGet cs clk dio b p, l with
    | some (PinCfg.out Level.low), Level.high => true
    | some (PinCfg.out Level.high), Level.low => true
    | _, _ => false
  | _ => false

/-- Minimum-delay check: every signal transition other than the first must be
preceded by at least one `sleep` (one configured timing unit) since the
previous transition.  `slept` records whether a unit has elapsed since the
last transition (initially `true`: the first transition is unconstrained). -/
def minGapOK (cs clk dio : Nat) : BusSt → Bool → List Ev → Bool
  | _, _, [] => true
  | b, _, Ev.sleep :: rest => minGapOK cs clk dio b true rest
  | b, slept, e :: rest =>
    if transitionOf cs clk dio b e then
      slept && minGapOK cs clk dio (stepBus cs clk dio b e) false rest
    else minGapOK cs clk dio (stepBus cs clk dio b e) slept rest

/-- The adjacency the code actually produces inside the control word: a level
change on the data pin immediately followed by the clock rising edge of the
same control bit. -/
def allowedPair (clk dio : Nat) : Option Ev → Ev → Bool
  | some (Ev.write p _), Ev.write q Level.high =>
    if p = dio then (if q = clk then true else false) else false
  | _, _ => false

/-- Minimum-delay check amended with the data-bit exception: consecutive
transitions must be a timing unit apart, except that a data-pin level change
may be immediately followed by a clock rising edge.  `last` is the previous
transition, `slept` whether a unit has elapsed since it. -/
def minGapOKx (cs clk dio : Nat) : BusSt → Option Ev → Bool → List Ev → Bool
  | _, _, _, [] => true
  | b, last, _, Ev.sleep :: rest => minGapOKx cs clk dio b last true rest
  | b, last, slept, e :: rest =>
    if transitionOf cs clk dio b e then
      (slept || allowedPair clk dio last e) &&
        minGapOKx cs clk dio (stepBus cs clk dio b e) (some e) false rest
    else minGapOKx cs clk dio (stepBus cs clk dio b e) last slept rest

/-- Chip-select discipline: walking the trace with the current chip-select
level (initially `lvl`), every write to the clock pin must find chip-select
low, and chip-select must be high again when the trace ends. -/
def csLowDuringClk (cs clk : Nat) : Level → List Ev → Bool
  | lvl, [] => (match lvl with | Level.high => true | Level.low => false)
  | lvl, e :: rest =>
    match e with
    | Ev.write p l =>
      if p = cs then csLowDuringClk cs clk l rest
      else if p = clk then
        (match lvl with
         | Level.low => csLowDuringClk cs clk lvl rest
         | Level.high => false)
      else csLowDuringClk cs clk lvl rest
    | _ => csLowDuringClk cs clk lvl rest

/-- The levels written to pin `p`, in trace order. -/
def writesTo (p : Nat) : List Ev → List Level
  | [] => []
  | e :: rest =>
    match e with
    | Ev.write q l => if q = p then l :: writesTo p rest else writesTo p rest
    | _ => writesTo p rest

/-- The direction events applied to pin `p`, in trace order
(`true` = configured as output, `false` = configured as input). -/
def dirEventsOf (p : Nat) : List Ev → List Bool
  | [] => []
  | e :: rest =>
    match e with
    | Ev.setOut q => if q = p then true :: dirEventsOf p rest else dirEventsOf p rest
    | Ev.setIn q => if q = p then false :: dirEventsOf p rest else dirEventsOf p rest
    | _ => dirEventsOf p rest

/-- The prefix of a trace strictly before the first switch of pin `p` to
input mode (the direction handover). -/
def beforeHandover (p : Nat) : List Ev → List Ev
  | [] => []
  | e :: rest =>
    match e with
    | Ev.setIn q => if q = p then [] else Ev.setIn q :: beforeHandover p rest
    | e' => e' :: beforeHandover p rest

/-- The suffix of a trace strictly after the first switch of pin `p` to
input mode. -/
def afterHandover (p : Nat) : List Ev → List Ev
  | [] => []
  | e :: rest =>
    match e with
    | Ev.setIn q => if q = p then rest else afterHandover p rest
    | _ => afterHandover p rest

/-- Control-word shape check: once a write to the data pin has been seen,
the clock writes between consecutive data-pin writes (and after the last
one) must be exactly one rising-then-falling pair.  `started` records
whether a data-pin write has been seen, `acc` the clock levels written since
the last one. -/
def bitsClocked (clk dio : Nat) : Bool → List Level → List Ev → Bool
  | started, acc, [] =>
    !started || (match acc with | [Level.high, Level.low] => true | _ => false)
  | started, acc, e :: rest =>
    match e with
    | Ev.write p l =>
      if p = dio then
        (!started || (match acc with | [Level.high, Level.low] => true | _ => false)) &&
          bitsClocked clk dio true [] rest
      else if p = clk then bitsClocked clk dio started (acc ++ [l]) rest
      else bitsClocked clk dio started acc rest
    | _ => bitsClocked clk dio started acc rest

/-- The number of data-pin samples (`GPIO.input` calls) in a trace. -/
def countReads : List Ev → Nat
  | [] => 0
  | e :: rest =>
    match e with
    | Ev.readPin _ => countReads rest + 1
    | _ => countReads rest

/-- Whether every pin an event touches is one of the three given pins. -/
def pinsAmong (cs clk dio : Nat) : List Ev → Bool
  | [] => true
  | e :: rest =>
    (match e with
     | Ev.setOut p => if p = cs then true else if p = clk then true else if p = dio then true else false
     | Ev.setIn p => if p = cs then true else if p = clk then true else if p = dio then true else false
     | Ev.write p _ => if p = cs then true else if p = clk then true else if p = dio then true else false
     | Ev.readPin p => if p = cs then true else if p = clk then true else if p = dio then true else false
     | Ev.sleep => true
     | Ev.release p => if p = cs then true else if p = clk then true else if p = dio then true else false) &&
      pinsAmong cs clk dio rest

/-- The all-low environment: the data line reads low on every sample. -/
def envZero : Nat → Bool := fun _ => false

/-- An environment presenting the bit pattern 1 0 1 1 0 0 1 0 (the byte 178)
on every 8-sample read. -/
def envBits : Nat → Bool := fun i =>
  match i % 8 with
  | 0 => true
  | 2 => true
  | 3 => true
  | 6 => true
  | _ => false

/-- An environment whose first sample is high and all later samples low, so
the two 8-bit reads of a transaction disagree (128 then 0). -/
def envOne : Nat → Bool := fun i => decide (i = 0)

/-- The last two events of a trace. -/
def lastTwo : List Ev → List Ev
  | [] => []
  | [e] => [e]
  | [e, f] => [e, f]
  | _ :: rest => lastTwo rest

/-- The full pin-operation trace of one valid-channel transaction of `read`,
written out event by event; `chl` is the level of the transmitted
channel-select bit. -/
def fullTrace (cs clk dio : Nat) (chl : Level) : List Ev :=
  [Ev.write cs Level.low, Ev.write clk Level.low, Ev.sleep,
   Ev.setOut dio, Ev.write cs Level.low, Ev.write clk Level.low, Ev.sleep,
   Ev.write dio Level.high,
   Ev.write clk Level.high, Ev.sleep, Ev.write clk Level.low, Ev.sleep,
   Ev.write dio Level.high,
   Ev.write clk Level.high, Ev.sleep, Ev.write clk Level.low, Ev.sleep,
   Ev.write dio chl,
   Ev.write clk Level.high, Ev.sleep, Ev.write clk Level.low, Ev.sleep,
   Ev.setIn dio, Ev.sleep,
   Ev.write clk Level.high, Ev.sleep, Ev.readPin dio, Ev.write clk Level.low, Ev.sleep,
   Ev.write clk Level.high, Ev.sleep, Ev.readPin dio, Ev.write clk Level.low, Ev.sleep,
   Ev.write clk Level.high, Ev.sleep, Ev.readPin dio, Ev.write clk Level.low, Ev.sleep,
   Ev.write clk Level.high, Ev.sleep, Ev.readPin dio, Ev.write clk Level.low, Ev.sleep,
   Ev.write clk Level.high, Ev.sleep, Ev.readPin dio, Ev.write clk Level.low, Ev.sleep,
   Ev.write clk Level.high, Ev.sleep, Ev.readPin dio, Ev.write clk Level.low, Ev.sleep,
   Ev.write clk Level.high, Ev.sleep, Ev.readPin dio, Ev.write clk Level.low, Ev.sleep,
   Ev.write clk Level.high, Ev.sleep, Ev.readPin dio, Ev.write clk Level.low, Ev.sleep,
   Ev.write clk Level.high, Ev.sleep, Ev.write clk Level.low, Ev.sleep,
   Ev.write clk Level.high, Ev.sleep, Ev.readPin dio, Ev.write clk Level.low, Ev.sleep,
   Ev.write clk Level.high, Ev.sleep, Ev.readPin dio, Ev.write clk Level.low, Ev.sleep,
   Ev.write clk Level.high, Ev.sleep, Ev.readPin dio, Ev.write clk Level.low, Ev.sleep,
   Ev.write clk Level.high, Ev.sleep, Ev.readPin dio, Ev.write clk Level.low, Ev.sleep,
   Ev.write clk Level.high, Ev.sleep, Ev.readPin dio, Ev.write clk Level.low, Ev.sleep,
   Ev.write clk Level.high, Ev.sleep, Ev.readPin dio, Ev.write clk Level.low, Ev.sleep,
   Ev.write clk Level.high, Ev.sleep, Ev.readPin dio, Ev.write clk Level.low, Ev.sleep,
   Ev.write clk Level.high, Ev.sleep, Ev.readPin dio, Ev.write clk Level.low, Ev.sleep,
   Ev.write cs Level.high, Ev.sleep]

/-! ### Unfolding lemmas -/

/-- The trace of `read(0)` is `fullTrace` with a low channel bit, whatever
the environment and the `return_both` flag. -/
theorem read_trace_zero (cs clk dio : Nat) (env : Nat → Bool) (rb : Bool) :
    (ADC0832.read ⟨cs, clk, dio⟩ 0 env rb).2 = fullTrace cs clk dio Level.low := rfl

/-- The trace of `read(1)` is `fullTrace` with a high channel bit. -/
theorem read_trace_one (cs clk dio : Nat) (env : Nat → Bool) (rb : Bool) :
    (ADC0832.read ⟨cs, clk, dio⟩ 1 env rb).2 = fullTrace cs clk dio Level.high := rfl

/-- The accumulated value of an 8-bit read, unfolded: eight steps of
`value = (value << 1) | bit` over the samples `env i … env (i+7)`. -/
theorem read_byte_val (st : ModuleState) (env : Nat → Bool) (i : Nat) :
    (read_byte_msb_first st env i).1 =
      (((((((0 <<< 1 ||| cond (env i) 1 0) <<< 1 ||| cond (env (i+1)) 1 0) <<< 1
        ||| cond (env (i+2)) 1 0) <<< 1 ||| cond (env (i+3)) 1 0) <<< 1
        ||| cond (env (i+4)) 1 0) <<< 1 ||| cond (env (i+5)) 1 0) <<< 1
        ||| cond (env (i+6)) 1 0) <<< 1 ||| cond (env (i+7)) 1 0 := rfl

/-- An 8-bit read yields at most 255. -/
theorem read_byte_le (st : ModuleState) (env : Nat → Bool) (i : Nat) :
    (read_byte_msb_first st env i).1 ≤ 255 := by
  rw [read_byte_val]
  cases env i <;> cases env (i+1) <;> cases env (i+2) <;> cases env (i+3) <;>
    cases env (i+4) <;> cases env (i+5) <;> cases env (i+6) <;> cases env (i+7) <;> decide

/-- Masking an 8-bit read with `0xFF` changes nothing. -/
theorem read_byte_and255 (st : ModuleState) (env : Nat → Bool) (i : Nat) :
    (read_byte_msb_first st env i).1 &&& 255 = (read_byte_msb_first st env i).1 := by
  rw [read_byte_val]
  cases env i <;> cases env (i+1) <;> cases env (i+2) <;> cases env (i+3) <;>
    cases env (i+4) <;> cases env (i+5) <;> cases env (i+6) <;> cases env (i+7) <;> decide

/-- The first 8-bit read assembles the sampled bits MSB-first: the value is
the sum of `2^(7-j)` over the positions `j` sampled high. -/
theorem read_byte_sum (st : ModuleState) (env : Nat → Bool) :
    (read_byte_msb_first st env 0).1 =
      ∑ j ∈ Finset.range 8, (if env j then 2 ^ (7 - j) else 0) := by
  rw [read_byte_val]
  rw [Finset.sum_range_succ, Finset.sum_range_succ, Finset.sum_range_succ,
    Finset.sum_range_succ, Finset.sum_range_succ, Finset.sum_range_succ,
    Finset.sum_range_succ, Finset.sum_range_succ, Finset.sum_range_zero]
  norm_num
  cases env 0 <;> cases env 1 <;> cases env 2 <;> cases env 3 <;>
    cases env 4 <;> cases env 5 <;> cases env 6 <;> cases env 7 <;> decide

/-- When the environment repeats the first 8 samples on samples 8-15, the
second 8-bit read of a transaction equals the first. -/
theorem read_byte_second_eq (st : ModuleState) (env : Nat → Bool)
    (h : ∀ i, i < 8 → env (8 + i) = env i) :
    (read_byte_msb_first st env 8).1 = (read_byte_msb_first st env 0).1 := by
  rw [read_byte_val, read_byte_val]
  have e0 : env 8 = env 0 := by simpa using h 0 (by norm_num)
  have e1 : env 9 = env 1 := by simpa using h 1 (by norm_num)
  have e2 : env 10 = env 2 := by simpa using h 2 (by norm_num)
  have e3 : env 11 = env 3 := by simpa using h 3 (by norm_num)
  have e4 : env 12 = env 4 := by simpa using h 4 (by norm_num)
  have e5 : env 13 = env 5 := by simpa using h 5 (by norm_num)
  have e6 : env 14 = env 6 := by simpa using h 6 (by norm_num)
  have e7 : env 15 = env 7 := by simpa using h 7 (by norm_num)
  norm_num [e0, e1, e2, e3, e4, e5, e6, e7]

/-- Result of `read(0, return_both=True)`, unfolded. -/
theorem read_result_both_zero (st : ModuleState) (env : Nat → Bool) :
    (ADC0832.read st 0 env true).1 =
      Except.ok (ReadResult.both ((read_byte_msb_first st env 0).1 &&& 255)
        ((read_byte_msb_first st env 8).1 &&& 255)) := rfl

/-- Result of `read(1, return_both=True)`, unfolded. -/
theorem read_result_both_one (st : ModuleState) (env : Nat → Bool) :
    (ADC0832.read st 1 env true).1 =
      Except.ok (ReadResult.both ((read_byte_msb_first st env 0).1 &&& 255)
        ((read_byte_msb_first st env 8).1 &&& 255)) := rfl

/-- Result of `read(0)`, unfolded to the reconciliation policy. -/
theorem read_result_false_zero (st : ModuleState) (env : Nat → Bool) :
    (ADC0832.read st 0 env false).1 =
      (if (read_byte_msb_first st env 0).1 = (read_byte_msb_first st env 8).1 then
        Except.ok (ReadResult.single ((read_byte_msb_first st env 0).1 &&& 255))
      else
        Except.ok (ReadResult.single (max 0 (min 255 (read_byte_msb_first st env 0).1)))) := rfl

/-- Result of `read(1)`, unfolded to the reconciliation policy. -/
theorem read_result_false_one (st : ModuleState) (env : Nat → Bool) :
    (ADC0832.read st 1 env false).1 =
      (if (read_byte_msb_first st env 0).1 = (read_byte_msb_first st env 8).1 then
        Except.ok (ReadResult.single ((read_byte_msb_first st env 0).1 &&& 255))
      else
        Except.ok (ReadResult.single (max 0 (min 255 (read_byte_msb_first st env 0).1)))) := rfl

/-- With a valid channel, `read` always succeeds (it raises only for an
invalid channel). -/
theorem read_ok (st : ModuleState) (ch : Int) (env : Nat → Bool) (rb : Bool)
    (hch : ch = 0 ∨ ch = 1) : ∃ v, (ADC0832.read st ch env rb).1 = Except.ok v := by
  rcases hch with rfl | rfl <;> cases rb
  · by_cases hd : (read_byte_msb_first st env 0).1 = (read_byte_msb_first st env 8).1
    · exact ⟨_, by rw [read_result_false_zero, if_pos hd]⟩
    · exact ⟨_, by rw [read_result_false_zero, if_neg hd]⟩
  · exact ⟨_, read_result_both_zero st env⟩
  · by_cases hd : (read_byte_msb_first st env 0).1 = (read_byte_msb_first st env 8).1
    · exact ⟨_, by rw [read_result_false_one, if_pos hd]⟩
    · exact ⟨_, by rw [read_result_false_one, if_neg hd]⟩
  · exact ⟨_, read_result_both_one st env⟩

/-! ### Claims -/

/-- C1: for every channel in {0, 1}, if both 8-bit sample reads of a
transaction observe the same bit sequence b0..b7 on the data pin (the n-th
sample of the second read equals the n-th sample of the first), then `read`
returns exactly the 8-bit value assembled most-significant-bit-first from
that sequence: the sum of b_j * 2^(7-j). -/
theorem read_identical_samples_value (st : ModuleState) (ch : Int)
    (hch : ch = 0 ∨ ch = 1) (env : Nat → Bool)
    (hsame : ∀ i, i < 8 → env (8 + i) = env i) :
    (ADC0832.read st ch env false).1 =
      Except.ok (ReadResult.single
        (∑ j ∈ Finset.range 8, (if env j then 2 ^ (7 - j) else 0))) := by
  have hd : (read_byte_msb_first st env 0).1 = (read_byte_msb_first st env 8).1 :=
    (read_byte_second_eq st env hsame).symm
  rcases hch with rfl | rfl
  · rw [read_result_false_zero, if_pos hd, read_byte_and255, read_byte_sum]
  · rw [read_result_false_one, if_pos hd, read_byte_and255, read_byte_sum]

/-- C1 witness: bits 1 0 1 1 0 0 1 0 presented on both reads give 178. -/
theorem read_identical_samples_value_witness :
    (ADC0832.read initialState 0 envBits false).1 =
      Except.ok (ReadResult.single 178) := by
  have h := read_identical_samples_value initialState 0 (Or.inl rfl) envBits (by decide)
  have hs : (∑ j ∈ Finset.range 8, (if envBits j then 2 ^ (7 - j) else 0)) = 178 := by decide
  rw [h, hs]

/-- C2: for every channel in {0, 1}, whenever the two independently-clocked
samples of a transaction differ, `read` returns the first sample clamped to
[0, 255] without retrying (the trace holds exactly the 16 samples of one
transaction), and `read` with `return_both=True` — which is what
`ADC0832Device.read_both` calls — returns both raw 8-bit samples unmodified,
in acquisition order. -/
theorem read_mismatch_policy (st : ModuleState) (ch : Int)
    (hch : ch = 0 ∨ ch = 1) (env : Nat → Bool)
    (hne : (read_byte_msb_first st env 0).1 ≠ (read_byte_msb_first st env 8).1) :
    (ADC0832.read st ch env false).1 =
      Except.ok (ReadResult.single (max 0 (min 255 (read_byte_msb_first st env 0).1))) ∧
    (ADC0832.read st ch env true).1 =
      Except.ok (ReadResult.both (read_byte_msb_first st env 0).1
        (read_byte_msb_first st env 8).1) ∧
    countReads (ADC0832.read st ch env false).2 = 16 ∧
    countReads (ADC0832.read st ch env true).2 = 16 ∧
    ADC0832Device.read_both ⟨false⟩ st ch env = ADC0832.read st ch env true := by
  rcases hch with rfl | rfl
  · refine ⟨?_, ?_, ?_, ?_, rfl⟩
    · rw [read_result_false_zero, if_neg hne]
    · rw [read_result_both_zero, read_byte_and255, read_byte_and255]
    · rw [read_trace_zero]; simp [fullTrace, countReads]
    · rw [read_trace_zero]; simp [fullTrace, countReads]
  · refine ⟨?_, ?_, ?_, ?_, rfl⟩
    · rw [read_result_false_one, if_neg hne]
    · rw [read_result_both_one, read_byte_and255, read_byte_and255]
    · rw [read_trace_one]; simp [fullTrace, countReads]
    · rw [read_trace_one]; simp [fullTrace, countReads]

/-- C2 witness: on an environment whose samples are 128 then 0, `read`
returns the clamped first sample 128 and the raw pair is (128, 0). -/
theorem read_mismatch_policy_witness :
    (ADC0832.read initialState 0 envOne false).1 =
      Except.ok (ReadResult.single 128) ∧
    (ADC0832.read initialState 0 envOne true).1 =
      Except.ok (ReadResult.both 128 0) := by
  have h := read_mismatch_policy initialState 0 (Or.inl rfl) envOne (by decide)
  exact ⟨h.1.trans (by rfl), h.2.1.trans (by rfl)⟩

/-- C3: for a channel in {0, 1}, `read` returns an integer in [0, 255]
whatever the data pin yields; for any other channel value it raises
`InvalidChannelError` (the `ValueError` of line 181) with an empty trace —
before performing any pin operation. -/
theorem read_channel_validation :
    (∀ (st : ModuleState) (ch : Int) (env : Nat → Bool), (ch = 0 ∨ ch = 1) →
      ∃ v, v ≤ 255 ∧ (ADC0832.read st ch env false).1 = Except.ok (ReadResult.single v)) ∧
    (∀ (st : ModuleState) (ch : Int) (env : Nat → Bool) (rb : Bool), ¬(ch = 0 ∨ ch = 1) →
      ADC0832.read st ch env rb = (Except.error AdcError.invalidChannel, [])) := by
  constructor
  · intro st ch env hch
    rcases hch with rfl | rfl
    · by_cases hd : (read_byte_msb_first st env 0).1 = (read_byte_msb_first st env 8).1
      · exact ⟨_, Nat.and_le_right, by rw [read_result_false_zero, if_pos hd]⟩
      · refine ⟨_, ?_, by rw [read_result_false_zero, if_neg hd]⟩
        omega
    · by_cases hd : (read_byte_msb_first st env 0).1 = (read_byte_msb_first st env 8).1
      · exact ⟨_, Nat.and_le_right, by rw [read_result_false_one, if_pos hd]⟩
      · refine ⟨_, ?_, by rw [read_result_false_one, if_neg hd]⟩
        omega
  · intro st ch env rb hch
    simp only [ADC0832.read]
    rw [if_neg hch]

/-- C3 witness: channel 0 yields a value at most 255; channel 2 raises the
invalid-channel error with no pin operation. -/
theorem read_channel_validation_witness :
    (∃ v, v ≤ 255 ∧ (ADC0832.read initialState 0 envZero false).1 =
      Except.ok (ReadResult.single v)) ∧
    ADC0832.read initialState 2 envZero false =
      (Except.error AdcError.invalidChannel, []) := by
  refine ⟨read_channel_validation.1 initialState 0 envZero (Or.inl rfl),
    read_channel_validation.2 initialState 2 envZero false (by decide)⟩

/-- C4: for every transaction of `read` (with either value of `return_both`,
hence also for `readBoth`) on pairwise-distinct pins and a valid channel, the
emitted trace keeps chip-select low at every clock-pin write and raises it
again only after the last one; exactly three control bits are written to the
data pin — start bit high, single-ended bit high, then the channel bit —
each followed by exactly one clock rising-then-falling edge; the data pin's
direction changes output-to-input exactly once, immediately after those
three clocked bits; and no further data-pin write occurs after the
handover. -/
theorem read_transaction_sequencing (cs clk dio : Nat) (h1 : cs ≠ clk)
    (h2 : cs ≠ dio) (h3 : clk ≠ dio) (ch : Int) (hch : ch = 0 ∨ ch = 1)
    (env : Nat → Bool) (rb : Bool) :
    csLowDuringClk cs clk Level.high (ADC0832.read ⟨cs, clk, dio⟩ ch env rb).2 = true ∧
    dirEventsOf dio (ADC0832.read ⟨cs, clk, dio⟩ ch env rb).2 = [true, false] ∧
    writesTo dio (beforeHandover dio (ADC0832.read ⟨cs, clk, dio⟩ ch env rb).2) =
      [Level.high, Level.high, if ch = 0 then Level.low else Level.high] ∧
    bitsClocked clk dio false []
      (beforeHandover dio (ADC0832.read ⟨cs, clk, dio⟩ ch env rb).2) = true ∧
    writesTo dio (afterHandover dio (ADC0832.read ⟨cs, clk, dio⟩ ch env rb).2) = [] := by
  rcases hch with rfl | rfl <;>
    simp only [read_trace_zero, read_trace_one] <;>
    refine ⟨?_, ?_, ?_, ?_, ?_⟩ <;>
    simp [fullTrace, csLowDuringClk, dirEventsOf, writesTo, beforeHandover,
      afterHandover, bitsClocked, h1, h2, h3, Ne.symm h1, Ne.symm h2, Ne.symm h3]

/-- C4 witness: the sequencing checks on the concrete transaction
`read(0)` over pins 17/18/27. -/
theorem read_transaction_sequencing_witness :
    csLowDuringClk 17 18 Level.high (ADC0832.read ⟨17, 18, 27⟩ 0 envZero false).2 = true ∧
    dirEventsOf 27 (ADC0832.read ⟨17, 18, 27⟩ 0 envZero false).2 = [true, false] ∧
    writesTo 27 (beforeHandover 27 (ADC0832.read ⟨17, 18, 27⟩ 0 envZero false).2) =
      [Level.high, Level.high, Level.low] ∧
    bitsClocked 18 27 false []
      (beforeHandover 27 (ADC0832.read ⟨17, 18, 27⟩ 0 envZero false).2) = true ∧
    writesTo 27 (afterHandover 27 (ADC0832.read ⟨17, 18, 27⟩ 0 envZero false).2) = [] := by
  have h := read_transaction_sequencing 17 18 27 (by decide) (by decide) (by decide)
    0 (Or.inl rfl) envZero false
  simpa using h

/-- C5 counterexample: `setup` performs no pin-distinctness validation; with
chip-select and clock both wired to pin 5 it completes normally — storing
the assignment and emitting the full configuration trace — instead of
failing with `ConfigurationError`. -/
theorem setup_no_distinctness_check :
    setup ⟨[]⟩ 5 5 7 false ≠ Except.error AdcError.configurationError ∧
    setup ⟨[]⟩ 5 5 7 false = Except.ok (⟨[7, 5]⟩, ⟨5, 5, 7⟩,
      [Ev.setOut 5, Ev.setOut 5, Ev.setOut 7,
       Ev.write 5 Level.high, Ev.write 5 Level.low, Ev.write 7 Level.low,
       Ev.sleep]) := by
  exact ⟨fun h => Except.noConfusion h, rfl⟩

/-- C5 amended: `setup` never fails (the source has no distinctness check
and no ConfigurationError); with pairwise-distinct pins it stores the
assignment, configures all three pins as outputs and leaves chip-select
high, clock low and data low — the idle bus state — from any prior bus
state. -/
theorem setup_idle_state (g : GPIOSt) (cs clk dio : Nat) (w : Bool)
    (h1 : cs ≠ clk) (h2 : cs ≠ dio) (h3 : clk ≠ dio) (b : BusSt) :
    ∃ g2 tr, setup g cs clk dio w = Except.ok (g2, ⟨cs, clk, dio⟩, tr) ∧
      runBus cs clk dio b tr = idleBus := by
  refine ⟨_, _, rfl, ?_⟩
  simp [runBus, stepBus, busGet, busSet, idleBus, h1, h2, h3,
    Ne.symm h1, Ne.symm h2, Ne.symm h3]

/-- C5 witness: the idle state established by `setup(17, 18, 27)`. -/
theorem setup_idle_state_witness :
    ∃ g2 tr, setup ⟨[]⟩ 17 18 27 false = Except.ok (g2, ⟨17, 18, 27⟩, tr) ∧
      runBus 17 18 27 ⟨PinCfg.inp, PinCfg.inp, PinCfg.inp⟩ tr = idleBus :=
  setup_idle_state ⟨[]⟩ 17 18 27 false (by decide) (by decide) (by decide) _

/-- C6 counterexample: the module-level `read` has no initialization guard.
Invoked in the initial module state — before `setup` has ever been called —
it does not fail with a NotInitializedError; it emits a full transaction of
pin operations and returns a value. -/
theorem module_read_no_init_guard :
    (ADC0832.read initialState 0 envZero false).1 = Except.ok (ReadResult.single 0) ∧
    (ADC0832.read initialState 0 envZero false).1 ≠ Except.error AdcError.notInitialized ∧
    (ADC0832.read initialState 0 envZero false).2 ≠ [] := by
  refine ⟨rfl, fun h => Except.noConfusion h, fun h => List.noConfusion h⟩

/-- C6 amended: only the device wrapper guards the lifecycle: after `close`,
`ADC0832Device.read` and `read_both` fail with the NotInitializedError
analogue (`RuntimeError`) performing no pin operation; the module-level
`read` performs no initialization check of its own — it never raises
NotInitializedError and, for a valid channel, always attempts pin
operations, whatever the module state. -/
theorem device_read_after_close (st : ModuleState) (ch : Int)
    (env : Nat → Bool) (rb : Bool) (hch : ch = 0 ∨ ch = 1) :
    ADC0832Device.read ⟨true⟩ st ch env = (Except.error AdcError.notInitialized, []) ∧
    ADC0832Device.read_both ⟨true⟩ st ch env = (Except.error AdcError.notInitialized, []) ∧
    (ADC0832.read st ch env rb).1 ≠ Except.error AdcError.notInitialized ∧
    (ADC0832.read st ch env rb).2 ≠ [] := by
  obtain ⟨v, hv⟩ := read_ok st ch env rb hch
  refine ⟨rfl, rfl, ?_, ?_⟩
  · rw [hv]; exact fun h => Except.noConfusion h
  · obtain ⟨c, k, d⟩ := st
    rcases hch with rfl | rfl
    · rw [read_trace_zero]; simp [fullTrace]
    · rw [read_trace_one]; simp [fullTrace]

/-- C6 witness: the closed-device failure and the module-level behaviour at
channel 1 on the default pins. -/
theorem device_read_after_close_witness :
    ADC0832Device.read ⟨true⟩ initialState 1 envZero =
      (Except.error AdcError.notInitialized, []) ∧
    (ADC0832.read initialState 1 envZero false).2 ≠ [] := by
  have h := device_read_after_close initialState 1 envZero false (Or.inr rfl)
  exact ⟨h.1, h.2.2.2⟩

/-- C7 counterexample: after the `read(0)` transaction on pins 17/18/27
starting from the idle state, the data pin has been left in input mode —
the deselect step never switches it back to output or drives it low — so
the post-transaction pin state does not equal the idle state established by
`setup`. -/
theorem deselect_leaves_dio_input :
    runBus 17 18 27 idleBus (ADC0832.read initialState 0 envZero false).2 ≠ idleBus ∧
    (runBus 17 18 27 idleBus (ADC0832.read initialState 0 envZero false).2).dioPin =
      PinCfg.inp := by
  exact ⟨by decide, by decide⟩

/-- C7 amended: the deselect step of every transaction raises chip-select
(the last three chip-select writes are low, low, high) and waits one timing
unit (the trace ends with that write followed by a sleep), but does not
switch the data pin back to output: chip-select and clock return to their
idle configurations while the data pin remains an input, so the
post-transaction state differs from `setup`'s idle state in the data pin's
direction. -/
theorem deselect_final_state (cs clk dio : Nat) (h1 : cs ≠ clk) (h2 : cs ≠ dio)
    (h3 : clk ≠ dio) (ch : Int) (hch : ch = 0 ∨ ch = 1) (env : Nat → Bool) (rb : Bool) :
    runBus cs clk dio idleBus (ADC0832.read ⟨cs, clk, dio⟩ ch env rb).2 =
      ⟨PinCfg.out Level.high, PinCfg.out Level.low, PinCfg.inp⟩ ∧
    writesTo cs (ADC0832.read ⟨cs, clk, dio⟩ ch env rb).2 =
      [Level.low, Level.low, Level.high] ∧
    lastTwo (ADC0832.read ⟨cs, clk, dio⟩ ch env rb).2 =
      [Ev.write cs Level.high, Ev.sleep] := by
  rcases hch with rfl | rfl <;>
    simp only [read_trace_zero, read_trace_one] <;>
    refine ⟨?_, ?_, ?_⟩ <;>
    simp [fullTrace, runBus, stepBus, busGet, busSet, idleBus, writesTo, lastTwo,
      h1, h2, h3, Ne.symm h1, Ne.symm h2, Ne.symm h3]

/-- C7 witness: the amended deselect behaviour on the concrete transaction
`read(1)` over pins 17/18/27. -/
theorem deselect_final_state_witness :
    runBus 17 18 27 idleBus (ADC0832.read ⟨17, 18, 27⟩ 1 envZero false).2 =
      ⟨PinCfg.out Level.high, PinCfg.out Level.low, PinCfg.inp⟩ ∧
    writesTo 17 (ADC0832.read ⟨17, 18, 27⟩ 1 envZero false).2 =
      [Level.low, Level.low, Level.high] ∧
    lastTwo (ADC0832.read ⟨17, 18, 27⟩ 1 envZero false).2 =
      [Ev.write 17 Level.high, Ev.sleep] := by
  have h := deselect_final_state 17 18 27 (by decide) (by decide) (by decide)
    1 (Or.inr rfl) envZero false
  simpa using h

/-- C8 counterexample: the `read(0)` transaction on pins 17/18/27 contains
two consecutive signal transitions with no delay between them — the
start-bit write on the data pin is immediately followed by the clock rising
edge — so the claimed minimum-separation property fails at the chip-minimum
configured delay. -/
theorem timing_gap_violation :
    minGapOK 17 18 27 idleBus true (ADC0832.read initialState 0 envZero false).2 = false := by
  decide

/-- C8 amended: in every transaction, any two consecutive signal transitions
are separated by at least one configured timing unit, except that each
control-bit level change on the data pin is immediately followed — with no
intervening delay — by the clock rising edge that transmits that bit. -/
theorem timing_gaps_with_databit_exception (cs clk dio : Nat) (h1 : cs ≠ clk)
    (h2 : cs ≠ dio) (h3 : clk ≠ dio) (ch : Int) (hch : ch = 0 ∨ ch = 1)
    (env : Nat → Bool) (rb : Bool) :
    minGapOKx cs clk dio idleBus none true (ADC0832.read ⟨cs, clk, dio⟩ ch env rb).2 = true := by
  rcases hch with rfl | rfl <;>
    simp only [read_trace_zero, read_trace_one] <;>
    simp [fullTrace, minGapOKx, transitionOf, stepBus, busGet, busSet, allowedPair,
      idleBus, h1, h2, h3, Ne.symm h1, Ne.symm h2, Ne.symm h3]

/-- C8 witness: the amended timing discipline on the concrete transaction
`read(1)` over pins 17/18/27. -/
theorem timing_gaps_with_databit_exception_witness :
    minGapOKx 17 18 27 idleBus none true (ADC0832.read ⟨17, 18, 27⟩ 1 envZero false).2 = true :=
  timing_gaps_with_databit_exception 17 18 27 (by decide) (by decide) (by decide)
    1 (Or.inr rfl) envZero false

/-- C9: teardown never raises — any failure of the pin controller's release
is absorbed — and it is idempotent: a second consecutive `cleanup` returns
no error and emits no pin events beyond those of the first call, and a
second `ADC0832Device.close` is a complete no-op. -/
theorem cleanup_never_raises_idempotent :
    (∀ (g : GPIOSt) (fails : Bool), ∃ r, cleanup g fails = Except.ok r) ∧
    (∀ (g g1 : GPIOSt) (tr1 : List Ev), cleanup g false = Except.ok (g1, tr1) →
      ∀ fails, cleanup g1 fails = Except.ok (g1, [])) ∧
    (∀ (g : GPIOSt) (fails : Bool), ∃ g2 tr,
      ADC0832Device.close ⟨false⟩ g fails = Except.ok (⟨true⟩, g2, tr)) ∧
    (∀ (g : GPIOSt) (fails : Bool),
      ADC0832Device.close ⟨true⟩ g fails = Except.ok (⟨true⟩, g, [])) := by
  refine ⟨?_, ?_, ?_, ?_⟩
  · intro g fails
    cases fails
    · exact ⟨_, rfl⟩
    · exact ⟨(g, []), rfl⟩
  · intro g g1 tr1 h fails
    have hg : g1 = ⟨[]⟩ := by
      simp [cleanup, gpio_cleanup] at h
      exact h.1.symm
    subst hg
    cases fails <;> rfl
  · intro g fails
    cases fails
    · exact ⟨_, _, rfl⟩
    · exact ⟨g, [], rfl⟩
  · intro g fails
    rfl

/-- C9 witness: cleanup on a two-pin state with a failing controller, the
idempotent second call, and the device double-close. -/
theorem cleanup_never_raises_idempotent_witness :
    (∃ r, cleanup ⟨[5, 9]⟩ true = Except.ok r) ∧
    cleanup ⟨[]⟩ true = Except.ok (⟨[]⟩, []) ∧
    ADC0832Device.close ⟨true⟩ ⟨[5, 9]⟩ false = Except.ok (⟨true⟩, ⟨[5, 9]⟩, []) := by
  have h := cleanup_never_raises_idempotent
  exact ⟨h.1 ⟨[5, 9]⟩ true, h.2.1 ⟨[5, 9]⟩ ⟨[]⟩ _ rfl true, h.2.2.2 ⟨[5, 9]⟩ false⟩

/-- C10: the pin assignment is module-level shared mutable state.
Constructing an `ADC0832Device` runs `setup`, which overwrites the module
globals with its pins; the device object itself records only its closed
flag; and any later `setup` overwrites the globals again, after which a read
issued through the earlier, still-open device delegates to the module-level
`read` on the *current* globals — every pin its trace touches is one of the
most recently configured pins, not the device's original ones. -/
theorem module_pin_state_shared (g g2 : GPIOSt) (c1 k1 d1 c2 k2 d2 : Nat)
    (w1 w2 : Bool) (ch : Int) (hch : ch = 0 ∨ ch = 1) (env : Nat → Bool) :
    ∃ dev g3 st1 tr1, ADC0832Device.init g c1 k1 d1 w1 = Except.ok (dev, g3, st1, tr1) ∧
      dev.closed = false ∧ st1 = ⟨c1, k1, d1⟩ ∧
      ∀ (g4 : GPIOSt) (st2 : ModuleState) (tr2 : List Ev),
        setup g2 c2 k2 d2 w2 = Except.ok (g4, st2, tr2) →
        st2 = ⟨c2, k2, d2⟩ ∧
        ADC0832Device.read dev st2 ch env = ADC0832.read st2 ch env false ∧
        pinsAmong c2 k2 d2 (ADC0832Device.read dev st2 ch env).2 = true := by
  refine ⟨⟨false⟩, _, _, _, rfl, rfl, rfl, ?_⟩
  intro g4 st2 tr2 h
  have hst : st2 = ⟨c2, k2, d2⟩ := by
    simp [setup] at h
    exact h.2.1.symm
  subst hst
  refine ⟨rfl, rfl, ?_⟩
  show pinsAmong c2 k2 d2 (ADC0832.read ⟨c2, k2, d2⟩ ch env false).2 = true
  rcases hch with rfl | rfl <;>
    simp only [read_trace_zero, read_trace_one] <;>
    simp [fullTrace, pinsAmong]

/-- C10 witness: a device constructed on pins 17/18/27, then a re-`setup` on
pins 5/6/13; the open device's read uses the new pins. -/
theorem module_pin_state_shared_witness :
    ∃ dev g3 st1 tr1, ADC0832Device.init ⟨[]⟩ 17 18 27 false =
        Except.ok (dev, g3, st1, tr1) ∧
      dev.closed = false ∧ st1 = ⟨17, 18, 27⟩ ∧
      ∀ (g4 : GPIOSt) (st2 : ModuleState) (tr2 : List Ev),
        setup ⟨[]⟩ 5 6 13 false = Except.ok (g4, st2, tr2) →
        st2 = ⟨5, 6, 13⟩ ∧
        ADC0832Device.read dev st2 0 envZero = ADC0832.read st2 0 envZero false ∧
        pinsAmong 5 6 13 (ADC0832Device.read dev st2 0 envZero).2 = true :=
  module_pin_state_shared ⟨[]⟩ ⟨[]⟩ 17 18 27 5 6 13 false false 0 (Or.inl rfl) envZero

end ADC0832
